import Mathlib

/-
Verification of the livetv object-mapping layer (src/plexapi/livetv.py).

The file shallowly embeds the module's registered domain-object loaders
(`_loadData` of each `@utils.registerPlexObject` class), the `LiveTV`
accessors (`cloud_key`, `xmltv_key`, `dvrs`, `sessions`) and the guide
request-path construction (`_guide_items`, `movies`, `shows`, `guide`).

External collaborators that are not under src/ (the Transport / PlexServer
query methods, `utils.parseXmlToDict`, `utils.cast`, `utils.toDatetime`,
`utils.datetimeToEpoch`, `PlexObject.fetchItems` / `findItems`) are modelled
from the spec where noted; everything else is translated line by line from
livetv.py.  Stateful accessors are embedded as explicit state-passing
functions over the `LiveTV` record plus a `TraceState` that logs every
request path handed to the Transport, so that "no fetch occurs" and
"exactly one fetch occurs" are provable statements.
-/

/-- A Python value as produced by parsing an XML document into nested
dictionaries and lists (the shape `utils.parseXmlToDict` yields: dicts with
string keys, lists, attribute strings), extended with `pnone` for Python's
`None` and `int` so the same type can serve as a `%`-format argument. -/
inductive PVal where
  | pnone
  | str (s : String)
  | int (n : Int)
  | list (xs : List PVal)
  | dict (kvs : List (String × PVal))

/-- Python truthiness of a `PVal`: `None`, `""`, `0` and empty containers
are falsy, everything else truthy. -/
def PVal.truthy : PVal → Bool
  | .pnone => false
  | .str s => !s.isEmpty
  | .int n => decide (n ≠ 0)
  | .list xs => !xs.isEmpty
  | .dict kvs => !kvs.isEmpty

/-- Association-list lookup for dictionary values. -/
def pyLookup : List (String × PVal) → String → Option PVal
  | [], _ => none
  | (k, v) :: rest, key => if k = key then some v else pyLookup rest key

/-- A Python runtime error, as raised during attribute access or
subscripting. -/
inductive PyErr where
  | attributeError (name : String)
  | keyError (k : String)
  | typeError (msg : String)
  | indexError
  deriving DecidableEq

/-- Python subscripting `v[k]`: dictionary lookup for string keys
(`KeyError` when absent), list and string indexing for integer keys with
negative-index wraparound (`IndexError` out of range), `TypeError`
otherwise. -/
def PVal.subscript : PVal → PVal → Except PyErr PVal
  | .dict kvs, .str k =>
      match pyLookup kvs k with
      | some v => .ok v
      | none => .error (.keyError k)
  | .dict _, .int _ => .error (.keyError "int key not present")
  | .dict _, .pnone => .error (.keyError "None")
  | .dict _, _ => .error (.typeError "unhashable type")
  | .list xs, .int i =>
      let n : Int := if i < 0 then i + xs.length else i
      if h : 0 ≤ n ∧ n.toNat < xs.length then .ok (xs.get ⟨n.toNat, h.2⟩)
      else .error .indexError
  | .list _, _ => .error (.typeError "list indices must be integers")
  | .str s, .int i =>
      let cs := s.data
      let n : Int := if i < 0 then i + cs.length else i
      if h : 0 ≤ n ∧ n.toNat < cs.length then .ok (.str (String.mk [cs.get ⟨n.toNat, h.2⟩]))
      else .error .indexError
  | .str _, _ => .error (.typeError "string indices must be integers")
  | .int _, _ => .error (.typeError "int object is not subscriptable")
  | .pnone, _ => .error (.typeError "NoneType object is not subscriptable")

/-- A parsed XML element as handed to `_loadData`: tag, attribute
dictionary, ordered children. -/
inductive Element where
  | mk (tag : String) (attrib : List (String × String)) (children : List Element)

/-- String-dictionary lookup used for `data.attrib.get(name)`. -/
def lookupStr : List (String × String) → String → Option String
  | [], _ => none
  | (k, v) :: rest, key => if k = key then some v else lookupStr rest key

/-- Python `data.attrib.get(name)`: the attribute's value, or `None`. -/
def Element.attribGet : Element → String → Option String
  | .mk _ attrib _, k => lookupStr attrib k

/-- Python `data.attrib.get(name, default)`. -/
def Element.attribGetD (e : Element) (k d : String) : String :=
  (e.attribGet k).getD d

/-- Python `data.attrib.key(name)` as written in `Recording._loadData` and
`ScheduledRecording._loadData`: `attrib` is a plain dict and Python dicts
define no attribute named `key` (only `keys`), so evaluating
`data.attrib.key` raises `AttributeError` before any call happens. -/
def Element.attribKeyMethod (_e : Element) (_k : String) : Except PyErr String :=
  .error (.attributeError "key")

def Element.children : Element → List Element
  | .mk _ _ cs => cs

/-- Modelled from the spec: `PlexObject.findItems` is not under src/.  Per
the spec (section 4.2, step 4) it recursively maps the child Elements of the
given element into owned child objects and performs no I/O; we retain the
child Elements themselves as the owned items. -/
def findItems (e : Element) : List Element :=
  e.children

/-- Accumulate the decimal value of a digit string; `none` on the first
non-digit character. -/
def digitsValAux : List Char → Nat → Option Nat
  | [], acc => some acc
  | c :: rest, acc =>
      if c.isDigit then digitsValAux rest (acc * 10 + (c.toNat - 48)) else none

/-- The decimal value of a non-empty all-digit character list. -/
def digitsVal : List Char → Option Nat
  | [] => none
  | cs => digitsValAux cs 0

/-- Python `int(s)` on the shapes the library meets: an optional sign
followed by decimal digits parses; anything else is malformed. -/
def parsePyInt (s : String) : Option Int :=
  match s.data with
  | '-' :: rest => (digitsVal rest).map (fun n => -(n : Int))
  | '+' :: rest => (digitsVal rest).map (fun n => (n : Int))
  | cs => (digitsVal cs).map (fun n => (n : Int))

/-- Modelled from the spec: `utils.cast(int, value)` is not under src/.
Per the spec, an "integer cast defaults to None/absent rather than raising
on malformed input"; a missing or malformed string yields `none`. -/
def cast_int : Option String → Option Int
  | none => none
  | some v => parsePyInt v

/-- Modelled from the spec: `utils.toDatetime` is not under src/.
Timestamps are modelled by their epoch integer; a missing or malformed
value is `none`. -/
def toDatetime : Option String → Option Int
  | none => none
  | some v => parsePyInt v

/-- Modelled from the spec: datetimes are represented by their epoch value,
so `utils.datetimeToEpoch` (not under src/) is the identity on that value. -/
def datetimeToEpoch (dt : Int) : Int := dt

/-- A mapped domain object, abstracted as its parsed document value (the
mapping pipeline `fetchItems` runs is outside src/). -/
abbrev Item := PVal

/-- The Transport's answer for one request path: the `requests` truthiness
flag (status < 400), the status code, and the response body already parsed
by the XML Adapter. -/
structure Response where
  ok : Bool
  status : Nat
  data : PVal

/-- Modelled from the spec: the Transport and the XML Adapter are external
collaborators ("given a URL and headers, return a response body string";
"given an XML string, return a parsed tree").  `queryReturnResponse` is
their composition as consumed by `LiveTV._parseXmlToDict`;
`fetchItemsResult` is the object list `PlexObject.fetchItems` (not under
src/) maps out of the document fetched from the given path. -/
structure Env where
  queryReturnResponse : String → Response
  fetchItemsResult : String → List Item

/-- The log of request paths handed to the Transport, in order. -/
structure TraceState where
  requests : List String

/-- Modelled from the spec: `PlexObject.fetchItems` (not under src/) issues
exactly one Transport GET of the given path and maps the returned document
to domain objects. -/
def fetchItems (env : Env) (key : String) (s : TraceState) : List Item × TraceState :=
  (env.fetchItemsResult key, ⟨s.requests ++ [key]⟩)

/-- Fields of `IPTVChannel` (livetv.py lines 24-31). -/
structure IPTVChannelFields where
  _data : Element
  art : Option String
  guid : Option String
  thumb : Option String
  title : Option String
  type : Option String
  items : List Element

/-- `IPTVChannel._loadData` (livetv.py lines 24-31). -/
def IPTVChannel.loadData (_env : Env) (data : Element) (s : TraceState) :
    Except PyErr (IPTVChannelFields × TraceState) :=
  .ok ({ _data := data
         art := data.attribGet "art"
         guid := data.attribGet "id"
         thumb := data.attribGet "thumb"
         title := data.attribGet "title"
         type := data.attribGet "type"
         items := findItems data }, s)

/-- Fields of `Recording` (livetv.py lines 40-47). -/
structure RecordingFields where
  _data : Element
  key : String
  type : String
  targetLibrarySectionId : Option String
  createdAt : Option Int
  title : Option String
  items : List Element

/-- `Recording._loadData` (livetv.py lines 40-47).  The assignments
preceding the failing line are discarded because construction fails: the
`self.key = data.attrib.key('key')` line raises `AttributeError` (see
`Element.attribKeyMethod`). -/
def Recording.loadData (_env : Env) (data : Element) (s : TraceState) :
    Except PyErr (RecordingFields × TraceState) :=
  match data.attribKeyMethod "key" with
  | .error e => .error e
  | .ok key =>
    match data.attribKeyMethod "type" with
    | .error e => .error e
    | .ok ty =>
      .ok ({ _data := data
             key := key
             type := ty
             targetLibrarySectionId := data.attribGet "targetLibrarySectionId"
             createdAt := toDatetime (data.attribGet "createdAt")
             title := data.attribGet "title"
             items := findItems data }, s)

/-- Fields of `ScheduledRecording` (livetv.py lines 59-69). -/
structure ScheduledRecordingFields where
  _data : Element
  mediaSubscriptionID : Option String
  mediaIndex : Option String
  key : String
  grabberIdentifier : Option String
  grabberProtocol : Option String
  deviceID : Option String
  status : Option String
  provider : Option String
  items : List Element

/-- `ScheduledRecording._loadData` (livetv.py lines 59-69).  The
`self.key = data.attrib.key('key')` line raises `AttributeError` (see
`Element.attribKeyMethod`), discarding the earlier assignments. -/
def ScheduledRecording.loadData (_env : Env) (data : Element) (s : TraceState) :
    Except PyErr (ScheduledRecordingFields × TraceState) :=
  match data.attribKeyMethod "key" with
  | .error e => .error e
  | .ok key =>
    .ok ({ _data := data
           mediaSubscriptionID := data.attribGet "mediaSubscriptionID"
           mediaIndex := data.attribGet "mediaIndex"
           key := key
           grabberIdentifier := data.attribGet "grabberIdentifier"
           grabberProtocol := data.attribGet "grabberProtocol"
           deviceID := data.attribGet "deviceID"
           status := data.attribGet "status"
           provider := data.attribGet "provider"
           items := findItems data }, s)

/-- Fields of `Setting` (livetv.py lines 78-90). -/
structure SettingFields where
  _data : Element
  id : Option String
  label : Option String
  summary : Option String
  type : Option String
  default : Option String
  value : Option String
  hidden : Option String
  advanced : Option String
  group : Option String
  enumValues : Option String
  items : List Element

/-- `Setting._loadData` (livetv.py lines 78-90). -/
def Setting.loadData (_env : Env) (data : Element) (s : TraceState) :
    Except PyErr (SettingFields × TraceState) :=
  .ok ({ _data := data
         id := data.attribGet "id"
         label := data.attribGet "label"
         summary := data.attribGet "summary"
         type := data.attribGet "type"
         default := data.attribGet "default"
         value := data.attribGet "value"
         hidden := data.attribGet "hidden"
         advanced := data.attribGet "advanced"
         group := data.attribGet "group"
         enumValues := data.attribGet "enumValues"
         items := findItems data }, s)

/-- Fields of `DVRChannel` (livetv.py lines 99-105). -/
structure DVRChannelFields where
  _data : Element
  channelKey : Option String
  deviceIdentifier : Option String
  enabled : Option Int
  lineupIdentifier : Option String
  items : List Element

/-- `DVRChannel._loadData` (livetv.py lines 99-105). -/
def DVRChannel.loadData (_env : Env) (data : Element) (s : TraceState) :
    Except PyErr (DVRChannelFields × TraceState) :=
  .ok ({ _data := data
         channelKey := data.attribGet "channelKey"
         deviceIdentifier := data.attribGet "deviceIdentifier"
         enabled := cast_int (data.attribGet "enabled")
         lineupIdentifier := data.attribGet "lineupIdentifier"
         items := findItems data }, s)

/-- Fields of `DVRDevice` (livetv.py lines 114-131). -/
structure DVRDeviceFields where
  _data : Element
  parentID : Option String
  key : String
  uuid : Option String
  uri : Option String
  protocol : Option String
  status : Option String
  state : Option String
  lastSeenAt : Option Int
  make : Option String
  model : Option String
  modelNumber : Option String
  source : Option String
  sources : Option String
  thumb : Option String
  tuners : Option Int
  items : List Element

/-- `DVRDevice._loadData` (livetv.py lines 114-131). -/
def DVRDevice.loadData (_env : Env) (data : Element) (s : TraceState) :
    Except PyErr (DVRDeviceFields × TraceState) :=
  .ok ({ _data := data
         parentID := data.attribGet "parentID"
         key := data.attribGetD "key" ""
         uuid := data.attribGet "uuid"
         uri := data.attribGet "uri"
         protocol := data.attribGet "protocol"
         status := data.attribGet "status"
         state := data.attribGet "state"
         lastSeenAt := toDatetime (data.attribGet "lastSeenAt")
         make := data.attribGet "make"
         model := data.attribGet "model"
         modelNumber := data.attribGet "modelNumber"
         source := data.attribGet "source"
         sources := data.attribGet "sources"
         thumb := data.attribGet "thumb"
         tuners := cast_int (data.attribGet "tuners")
         items := findItems data }, s)

/-- Fields of `DVR` (livetv.py lines 140-150); `DVR._loadData` overrides
`DVRDevice._loadData` entirely. -/
structure DVRFields where
  _data : Element
  key : Option Int
  uuid : Option String
  language : Option String
  lineupURL : Option String
  title : Option String
  country : Option String
  refreshTime : Option Int
  epgIdentifier : Option String
  items : List Element

/-- `DVR._loadData` (livetv.py lines 140-150). -/
def DVR.loadData (_env : Env) (data : Element) (s : TraceState) :
    Except PyErr (DVRFields × TraceState) :=
  .ok ({ _data := data
         key := cast_int (data.attribGet "key")
         uuid := data.attribGet "uuid"
         language := data.attribGet "language"
         lineupURL := data.attribGet "lineup"
         title := data.attribGet "lineupTitle"
         country := data.attribGet "country"
         refreshTime := toDatetime (data.attribGet "refreshedAt")
         epgIdentifier := data.attribGet "epgIdentifier"
         items := findItems data }, s)

/-- The kinds registered by `@utils.registerPlexObject` in livetv.py. -/
inductive PlexClass where
  | iptvChannel
  | recording
  | scheduledRecording
  | setting
  | dvrChannel
  | dvrDevice
  | dvr

/-- The result of mapping one Element with one registered kind's loader. -/
inductive MappedObj where
  | iptvChannel (f : IPTVChannelFields)
  | recording (f : RecordingFields)
  | scheduledRecording (f : ScheduledRecordingFields)
  | setting (f : SettingFields)
  | dvrChannel (f : DVRChannelFields)
  | dvrDevice (f : DVRDeviceFields)
  | dvr (f : DVRFields)

/-- Dispatch of the Object Mapper to the registered kind's `_loadData`. -/
def mapElement (c : PlexClass) (env : Env) (e : Element) (s : TraceState) :
    Except PyErr (MappedObj × TraceState) :=
  match c with
  | .iptvChannel => (IPTVChannel.loadData env e s).map (fun p => (.iptvChannel p.1, p.2))
  | .recording => (Recording.loadData env e s).map (fun p => (.recording p.1, p.2))
  | .scheduledRecording =>
      (ScheduledRecording.loadData env e s).map (fun p => (.scheduledRecording p.1, p.2))
  | .setting => (Setting.loadData env e s).map (fun p => (.setting p.1, p.2))
  | .dvrChannel => (DVRChannel.loadData env e s).map (fun p => (.dvrChannel p.1, p.2))
  | .dvrDevice => (DVRDevice.loadData env e s).map (fun p => (.dvrDevice p.1, p.2))
  | .dvr => (DVR.loadData env e s).map (fun p => (.dvr p.1, p.2))

/-- The `LiveTV` instance state (livetv.py lines 153-164).  `requests.Session`
and `PlexServer` are external collaborators modelled as opaque numeric
handles; `_token` is the optional token string and `_data` the parsed
construction document. -/
structure LiveTV where
  _token : Option String
  _session : Nat
  _server : Nat
  _data : PVal
  _dvrs : List Item
  _cloud_key : PVal
  _xmltv_key : PVal

/-- `LiveTV.__init__` (livetv.py lines 154-161): empty DVR cache, `None`
cloud and xmltv keys, a fresh session (handle 0) when none is given; the
`super().__init__(server, data)` chain ends in `_loadData`, which stores
the construction document in `_data`. -/
def LiveTV.init (server : Nat) (data : PVal) (session : Option Nat)
    (token : Option String) : LiveTV :=
  { _token := token
    _session := session.getD 0
    _server := server
    _data := data
    _dvrs := []
    _cloud_key := .pnone
    _xmltv_key := .pnone }

/-- `LiveTV._parseXmlToDict` (livetv.py lines 166-170).  The server's
`_queryReturnResponse` and `utils.parseXmlToDict` are not under src/ and are
modelled from the spec's Transport / XML Adapter contracts through the
environment's `queryReturnResponse` oracle; the issued request is logged.
A falsy response (`requests` truthiness: status >= 400) yields `None`. -/
def LiveTV.parseXmlToDict (env : Env) (key : String) (s : TraceState) :
    Option PVal × TraceState :=
  let r := env.queryReturnResponse key
  let s1 : TraceState := ⟨s.requests ++ [key]⟩
  if !r.ok then (none, s1) else (some r.data, s1)

/-- The expression `data['MediaContainer']['Directory'][1]['@title']` inside
the try blocks of `cloud_key` and `xmltv_key`; each subscript may raise. -/
def secondDirectoryTitle (data : PVal) : Except PyErr PVal := do
  let a ← data.subscript (.str "MediaContainer")
  let b ← a.subscript (.str "Directory")
  let c ← b.subscript (.int 1)
  c.subscript (.str "@title")

/-- `LiveTV.cloud_key` (livetv.py lines 172-182): `if not self._cloud_key`
fetch and parse `/tv.plex.providers.epg.cloud`; `return None` on a falsy
parse result; the try block stores the second Directory's title and the
bare `except: pass` absorbs every extraction error, after which
`self._cloud_key` is returned. -/
def LiveTV.cloud_key (env : Env) (self : LiveTV) (s : TraceState) :
    (PVal × LiveTV) × TraceState :=
  if self._cloud_key.truthy then ((self._cloud_key, self), s)
  else
    match LiveTV.parseXmlToDict env "/tv.plex.providers.epg.cloud" s with
    | (none, s1) => ((.pnone, self), s1)
    | (some data, s1) =>
      if !data.truthy then ((.pnone, self), s1)
      else
        match secondDirectoryTitle data with
        | .ok v => ((v, { self with _cloud_key := v }), s1)
        | .error _ => ((self._cloud_key, self), s1)

/-- `LiveTV.xmltv_key` (livetv.py lines 184-194), identical to `cloud_key`
over `/tv.plex.providers.epg.xmltv` and the `_xmltv_key` cache. -/
def LiveTV.xmltv_key (env : Env) (self : LiveTV) (s : TraceState) :
    (PVal × LiveTV) × TraceState :=
  if self._xmltv_key.truthy then ((self._xmltv_key, self), s)
  else
    match LiveTV.parseXmlToDict env "/tv.plex.providers.epg.xmltv" s with
    | (none, s1) => ((.pnone, self), s1)
    | (some data, s1) =>
      if !data.truthy then ((.pnone, self), s1)
      else
        match secondDirectoryTitle data with
        | .ok v => ((v, { self with _xmltv_key := v }), s1)
        | .error _ => ((self._xmltv_key, self), s1)

/-- `LiveTV.dvrs` (livetv.py lines 196-202): `if not self._dvrs` fetch
`/livetv/dvrs` and store the result, then return the cache. -/
def LiveTV.dvrs (env : Env) (self : LiveTV) (s : TraceState) :
    (List Item × LiveTV) × TraceState :=
  if self._dvrs.isEmpty then
    let (items, s1) := fetchItems env "/livetv/dvrs" s
    ((items, { self with _dvrs := items }), s1)
  else ((self._dvrs, self), s)

/-- `LiveTV.sessions` (livetv.py lines 204-208): fetches
`/livetv/sessions` on every access, with no cache. -/
def LiveTV.sessions (env : Env) (self : LiveTV) (s : TraceState) :
    (List Item × LiveTV) × TraceState :=
  let (items, s1) := fetchItems env "/livetv/sessions" s
  ((items, self), s1)

/-- A `%`-formatting error raised by CPython's str interpolation:
`ValueError` for an unsupported conversion character, `TypeError` when the
arguments run out or are left over, an incomplete trailing specifier. -/
inductive FmtErr where
  | unsupportedFormatChar (c : Char)
  | notEnoughArguments
  | notAllArgumentsConverted
  | incompleteFormat
  deriving DecidableEq

/-- The conversion characters CPython's `%`-formatting accepts (notably,
an uppercase C is not among them). -/
def pyConvChars : List Char :=
  ['d', 'i', 'o', 'u', 'x', 'X', 'e', 'E', 'f', 'F', 'g', 'G', 'c', 'r', 's', 'a']

/-- Python `str(v)` for `%s`.  Container reprs are canonical placeholders:
no format call in livetv.py reaches `%s` with a container argument. -/
def pyStr : PVal → String
  | .pnone => "None"
  | .str s => s
  | .int n => toString n
  | .list _ => "<list>"
  | .dict _ => "<dict>"

/-- Rendering of one accepted conversion.  Only `%s` output is ever
observable in livetv.py (the one non-`%s` conversion the module reaches,
`%3E`, is always followed by a specifier that fails with
`notEnoughArguments`, discarding the partial output), so accepted
conversions render canonically via `pyStr`; argument consumption and the
error semantics follow CPython exactly. -/
def renderConv (_conv : Char) (v : PVal) : String := pyStr v

/-- CPython `%`-format scanner (the subset livetv.py exercises: literal
text, `%%`, width digits, one conversion character).  `inSpec` is true
while inside a `%` specifier.  An unsupported conversion character raises
`ValueError: unsupported format character`; exhausted arguments raise
`TypeError: not enough arguments for format string`; leftover arguments
raise `TypeError: not all arguments converted`. -/
def pyFormatAux : (inSpec : Bool) → List Char → List PVal → String →
    Except FmtErr String
  | false, [], [], acc => .ok acc
  | false, [], _ :: _, _ => .error .notAllArgumentsConverted
  | false, c :: rest, args, acc =>
      if c = '%' then pyFormatAux true rest args acc
      else pyFormatAux false rest args (acc.push c)
  | true, [], _, _ => .error .incompleteFormat
  | true, c :: rest, args, acc =>
      if c.isDigit then pyFormatAux true rest args acc
      else if c = '%' then pyFormatAux false rest args (acc.push '%')
      else if pyConvChars.contains c then
        match args with
        | [] => .error .notEnoughArguments
        | a :: args1 => pyFormatAux false rest args1 (acc ++ renderConv c a)
      else .error (.unsupportedFormatChar c)

/-- Python `fmt % args`. -/
def pyFormat (fmt : String) (args : List PVal) : Except FmtErr String :=
  pyFormatAux false fmt.data args ""

/-- `LiveTV._guide_items` (livetv.py lines 229-243):
`key = '/%s/grid?type=%s' % (key, grid_type)`, then
`key += '&beginsAt%3C=%s' % utils.datetimeToEpoch(beginsAt)` when
`beginsAt` is given and `key += '&endsAt%3E=%s' % utils.datetimeToEpoch(endsAt)`
when `endsAt` is given, then `self._server.fetchItems(key)`.  Each `%`
interpolation goes through the CPython scanner `pyFormat`, whose errors
propagate; datetimes are epoch integers (see `datetimeToEpoch`). -/
def LiveTV.guide_items (env : Env) (key : PVal) (grid_type : Int)
    (beginsAt endsAt : Option Int) (s : TraceState) :
    Except FmtErr (List Item × TraceState) :=
  match pyFormat "/%s/grid?type=%s" [key, .int grid_type] with
  | .error e => .error e
  | .ok k0 =>
    let k1 : Except FmtErr String :=
      match beginsAt with
      | none => .ok k0
      | some b =>
        match pyFormat "&beginsAt%3C=%s" [.int (datetimeToEpoch b)] with
        | .error e => .error e
        | .ok t => .ok (k0 ++ t)
    match k1 with
    | .error e => .error e
    | .ok ka =>
      let k2 : Except FmtErr String :=
        match endsAt with
        | none => .ok ka
        | some b =>
          match pyFormat "&endsAt%3E=%s" [.int (datetimeToEpoch b)] with
          | .error e => .error e
          | .ok t => .ok (ka ++ t)
      match k2 with
      | .error e => .error e
      | .ok kf => .ok (fetchItems env kf s)

/-- `LiveTV.movies` (livetv.py lines 245-257): `if self.cloud_key:` then
`self._guide_items(key=self.cloud_key, grid_type=1, ...)` (each
`self.cloud_key` is a property access, so the accessor runs twice), then
the same for `xmltv_key`; results extend the `movies` list. -/
def LiveTV.movies (env : Env) (self : LiveTV) (beginsAt endsAt : Option Int)
    (s : TraceState) : Except FmtErr ((List Item × LiveTV) × TraceState) :=
  let ((ck, self1), s1) := LiveTV.cloud_key env self s
  let step1 : Except FmtErr ((List Item × LiveTV) × TraceState) :=
    if ck.truthy then
      let ((ck2, self2), s2) := LiveTV.cloud_key env self1 s1
      match LiveTV.guide_items env ck2 1 beginsAt endsAt s2 with
      | .error e => .error e
      | .ok (items, s3) => .ok ((items, self2), s3)
    else .ok (([], self1), s1)
  match step1 with
  | .error e => .error e
  | .ok ((movies1, selfA), sA) =>
    let ((xk, selfB), sB) := LiveTV.xmltv_key env selfA sA
    if xk.truthy then
      let ((xk2, selfC), sC) := LiveTV.xmltv_key env selfB sB
      match LiveTV.guide_items env xk2 1 beginsAt endsAt sC with
      | .error e => .error e
      | .ok (items2, sD) => .ok ((movies1 ++ items2, selfC), sD)
    else .ok ((movies1, selfB), sB)

/-- `LiveTV.shows` (livetv.py lines 259-271), as `movies` but with
`grid_type=4`. -/
def LiveTV.shows (env : Env) (self : LiveTV) (beginsAt endsAt : Option Int)
    (s : TraceState) : Except FmtErr ((List Item × LiveTV) × TraceState) :=
  let ((ck, self1), s1) := LiveTV.cloud_key env self s
  let step1 : Except FmtErr ((List Item × LiveTV) × TraceState) :=
    if ck.truthy then
      let ((ck2, self2), s2) := LiveTV.cloud_key env self1 s1
      match LiveTV.guide_items env ck2 4 beginsAt endsAt s2 with
      | .error e => .error e
      | .ok (items, s3) => .ok ((items, self2), s3)
    else .ok (([], self1), s1)
  match step1 with
  | .error e => .error e
  | .ok ((shows1, selfA), sA) =>
    let ((xk, selfB), sB) := LiveTV.xmltv_key env selfA sA
    if xk.truthy then
      let ((xk2, selfC), sC) := LiveTV.xmltv_key env selfB sB
      match LiveTV.guide_items env xk2 4 beginsAt endsAt sC with
      | .error e => .error e
      | .ok (items2, sD) => .ok ((shows1 ++ items2, selfC), sD)
    else .ok ((shows1, selfB), sB)

/-- `LiveTV.guide` (livetv.py lines 273-285): `all_movies = self.movies(...)`
then `return all_movies`; the `shows` call is commented out in the source
("Potential show endpoint currently hanging, do not use"). -/
def LiveTV.guide (env : Env) (self : LiveTV) (beginsAt endsAt : Option Int)
    (s : TraceState) : Except FmtErr ((List Item × LiveTV) × TraceState) :=
  let all_movies := LiveTV.movies env self beginsAt endsAt s
  all_movies

/-- The parsed form of the spec's cloud-key scenario document
`<MediaContainer><Directory id="1" title="cloudKey"/><Directory id="2" title="actualGuideId"/></MediaContainer>`. -/
def cloudDoc : PVal :=
  .dict [("MediaContainer", .dict [("Directory", .list
    [.dict [("@id", .str "1"), ("@title", .str "cloudKey")],
     .dict [("@id", .str "2"), ("@title", .str "actualGuideId")]])])]

/-- A parsed response with a single Directory entry, on which
`data['MediaContainer']['Directory'][1]` raises IndexError. -/
def oneDirDoc : PVal :=
  .dict [("MediaContainer", .dict [("Directory", .list
    [.dict [("@title", .str "only")]])])]

/-- A freshly constructed `LiveTV` instance. -/
def lt0 : LiveTV := LiveTV.init 0 (.dict []) none none

/-- An environment whose every fetch fails with status 404. -/
def env404 : Env := ⟨fun _ => ⟨false, 404, .pnone⟩, fun _ => []⟩

/-- An environment with one active session object behind every path. -/
def envSess : Env := ⟨fun _ => ⟨true, 200, .dict []⟩, fun _ => [.str "sess1"]⟩

/-- An environment answering every query with the cloud-key scenario
document and every item fetch with one DVR object. -/
def envAll : Env := ⟨fun _ => ⟨true, 200, cloudDoc⟩, fun _ => [.str "d1"]⟩

/-- An environment answering every query with the single-Directory
document. -/
def envFail : Env := ⟨fun _ => ⟨true, 200, oneDirDoc⟩, fun _ => []⟩

/-- The fresh instance after a dvrs access against `envAll`. -/
def ltD1 : LiveTV := { lt0 with _dvrs := [.str "d1"] }

/-- The fresh instance after a cloud_key access against `envAll`. -/
def ltC1 : LiveTV := { lt0 with _cloud_key := .str "actualGuideId" }

/-- The fresh instance after an xmltv_key access against `envAll`. -/
def ltX1 : LiveTV := { lt0 with _xmltv_key := .str "actualGuideId" }

/-- A ChannelMapping element with a malformed integer `enabled`. -/
def eCh : Element :=
  .mk "ChannelMapping" [("channelKey", "2"), ("deviceIdentifier", "dev"), ("enabled", "abc")] []

/-- A Device element with a malformed integer `tuners`. -/
def eDev : Element := .mk "Device" [("tuners", "many"), ("uuid", "u")] []

/-- A Dvr element with a malformed integer `key`. -/
def eDvr : Element := .mk "Dvr" [("key", "oops"), ("uuid", "u2")] []

/-- C1: the claim says mapping a MediaSubscription element via
`Recording._loadData`, or a MediaGrabOperation element via
`ScheduledRecording._loadData`, succeeds with missing attributes defaulted
to None.  In the code both loaders evaluate `data.attrib.key('key')`, and a
dict has no attribute `key`, so mapping always raises AttributeError — even
when every attribute is present. -/
theorem recording_loadData_always_raises :
    (∀ env s, Recording.loadData env
        (.mk "MediaSubscription" [("key", "/media/subscription/1"), ("title", "t")] []) s
      = .error (PyErr.attributeError "key"))
    ∧ (∀ env s, ScheduledRecording.loadData env
        (.mk "MediaGrabOperation" [("mediaSubscriptionID", "5")] []) s
      = .error (PyErr.attributeError "key")) :=
  ⟨fun _ _ => rfl, fun _ _ => rfl⟩

/-- C2 counterexample: `sessions` is one of the four accessors the claim
covers, yet a second access on the same instance issues a second Transport
request — the request log holds `/livetv/sessions` twice. -/
theorem sessions_fetches_on_every_access :
    (LiveTV.sessions envSess
        (LiveTV.sessions envSess lt0 ⟨[]⟩).1.2
        (LiveTV.sessions envSess lt0 ⟨[]⟩).2).2.requests
      = ["/livetv/sessions", "/livetv/sessions"] := rfl


/-- A `cloud_key` access on an instance whose cache is already truthy is a
pure cache read: same value, unchanged instance, no request. -/
theorem cloud_key_cached (env : Env) (lt : LiveTV) (s : TraceState)
    (h : lt._cloud_key.truthy = true) :
    LiveTV.cloud_key env lt s = ((lt._cloud_key, lt), s) := by
  unfold LiveTV.cloud_key
  simp [h]

/-- An `xmltv_key` access on an instance whose cache is already truthy is a
pure cache read. -/
theorem xmltv_key_cached (env : Env) (lt : LiveTV) (s : TraceState)
    (h : lt._xmltv_key.truthy = true) :
    LiveTV.xmltv_key env lt s = ((lt._xmltv_key, lt), s) := by
  unfold LiveTV.xmltv_key
  simp [h]

/-- A `dvrs` access on an instance whose cache is non-empty is a pure cache
read. -/
theorem dvrs_cached (env : Env) (lt : LiveTV) (s : TraceState)
    (h : lt._dvrs ≠ []) :
    LiveTV.dvrs env lt s = ((lt._dvrs, lt), s) := by
  unfold LiveTV.dvrs
  cases hl : lt._dvrs with
  | nil => exact absurd hl h
  | cons a l => simp [hl]

/-- Every `dvrs` access leaves the instance's `_dvrs` cache equal to the
value it returns. -/
theorem dvrs_caches_result (env : Env) (lt : LiveTV) (s : TraceState) :
    ((LiveTV.dvrs env lt s).1.2)._dvrs = (LiveTV.dvrs env lt s).1.1 := by
  unfold LiveTV.dvrs
  split
  · rfl
  · rfl

/-- Every `cloud_key` access either returns `None` or leaves the
`_cloud_key` cache equal to the value it returns. -/
theorem cloud_key_caches_result (env : Env) (lt : LiveTV) (s : TraceState) :
    (LiveTV.cloud_key env lt s).1.1 = PVal.pnone
    ∨ ((LiveTV.cloud_key env lt s).1.2)._cloud_key = (LiveTV.cloud_key env lt s).1.1 := by
  unfold LiveTV.cloud_key
  split
  · exact Or.inr rfl
  · split
    · exact Or.inl rfl
    · split
      · exact Or.inl rfl
      · split
        · exact Or.inr rfl
        · exact Or.inr rfl

/-- Every `xmltv_key` access either returns `None` or leaves the
`_xmltv_key` cache equal to the value it returns. -/
theorem xmltv_key_caches_result (env : Env) (lt : LiveTV) (s : TraceState) :
    (LiveTV.xmltv_key env lt s).1.1 = PVal.pnone
    ∨ ((LiveTV.xmltv_key env lt s).1.2)._xmltv_key = (LiveTV.xmltv_key env lt s).1.1 := by
  unfold LiveTV.xmltv_key
  split
  · exact Or.inr rfl
  · split
    · exact Or.inl rfl
    · split
      · exact Or.inl rfl
      · split
        · exact Or.inr rfl
        · exact Or.inr rfl

/-- C2 amended: `dvrs`, `cloud_key` and `xmltv_key` memoize truthy results:
once an access has returned a truthy value (a non-empty DVR list, a truthy
key) it is cached, and a repeated access on the resulting instance returns
the identical value, leaves the instance unchanged and issues no further
Transport request.  (`sessions` is uncached and falsy results are
re-fetched, hence the correction.) -/
theorem truthy_lazy_results_memoized :
    (∀ env lt s, (LiveTV.dvrs env lt s).1.1 ≠ [] →
      LiveTV.dvrs env (LiveTV.dvrs env lt s).1.2 (LiveTV.dvrs env lt s).2
        = LiveTV.dvrs env lt s)
    ∧ (∀ env lt s, ((LiveTV.cloud_key env lt s).1.1).truthy = true →
      LiveTV.cloud_key env (LiveTV.cloud_key env lt s).1.2 (LiveTV.cloud_key env lt s).2
        = LiveTV.cloud_key env lt s)
    ∧ (∀ env lt s, ((LiveTV.xmltv_key env lt s).1.1).truthy = true →
      LiveTV.xmltv_key env (LiveTV.xmltv_key env lt s).1.2 (LiveTV.xmltv_key env lt s).2
        = LiveTV.xmltv_key env lt s) := by
  refine ⟨?_, ?_, ?_⟩
  · intro env lt s ht
    have hk := dvrs_caches_result env lt s
    rw [dvrs_cached env _ _ (by rw [hk]; exact ht), hk]
  · intro env lt s ht
    rcases cloud_key_caches_result env lt s with hp | hk
    · rw [hp] at ht
      simp [PVal.truthy] at ht
    · rw [cloud_key_cached env _ _ (by rw [hk]; exact ht), hk]
  · intro env lt s ht
    rcases xmltv_key_caches_result env lt s with hp | hk
    · rw [hp] at ht
      simp [PVal.truthy] at ht
    · rw [xmltv_key_cached env _ _ (by rw [hk]; exact ht), hk]

/-- C2 witness: against `envAll`, a fresh instance's first `dvrs`,
`cloud_key` and `xmltv_key` accesses return truthy results, and the
repeated access reproduces the first access's result exactly. -/
theorem truthy_lazy_results_memoized_witness :
    LiveTV.dvrs envAll (LiveTV.dvrs envAll lt0 ⟨[]⟩).1.2 (LiveTV.dvrs envAll lt0 ⟨[]⟩).2
      = LiveTV.dvrs envAll lt0 ⟨[]⟩
    ∧ LiveTV.cloud_key envAll (LiveTV.cloud_key envAll lt0 ⟨[]⟩).1.2
        (LiveTV.cloud_key envAll lt0 ⟨[]⟩).2
      = LiveTV.cloud_key envAll lt0 ⟨[]⟩
    ∧ LiveTV.xmltv_key envAll (LiveTV.xmltv_key envAll lt0 ⟨[]⟩).1.2
        (LiveTV.xmltv_key envAll lt0 ⟨[]⟩).2
      = LiveTV.xmltv_key envAll lt0 ⟨[]⟩ :=
  ⟨truthy_lazy_results_memoized.1 envAll lt0 ⟨[]⟩ (fun h => List.noConfusion h),
   truthy_lazy_results_memoized.2.1 envAll lt0 ⟨[]⟩ (by rfl),
   truthy_lazy_results_memoized.2.2 envAll lt0 ⟨[]⟩ (by rfl)⟩

/-- C3 counterexample: against an environment whose fetch of
`/tv.plex.providers.epg.cloud` fails with status 404, `cloud_key` on a
fresh instance returns `None` as an ordinary value — the request is issued,
no error of any kind is surfaced, contradicting the claimed explicit
FetchFailed failure. -/
theorem cloud_key_silently_none_on_failed_fetch :
    LiveTV.cloud_key env404 lt0 ⟨[]⟩
      = ((PVal.pnone, lt0), ⟨["/tv.plex.providers.epg.cloud"]⟩) := rfl

/-- C3 amended: when the Transport fetch of the cloud or xmltv endpoint
fails (falsy response: status >= 400) and the corresponding cache is falsy,
`cloud_key` / `xmltv_key` silently return `None`, leaving the instance
unchanged; no FetchFailed-style error carrying URL or status is raised. -/
theorem fetch_failure_returns_none_silently :
    (∀ env lt s, lt._cloud_key.truthy = false →
      (env.queryReturnResponse "/tv.plex.providers.epg.cloud").ok = false →
      LiveTV.cloud_key env lt s
        = ((PVal.pnone, lt), ⟨s.requests ++ ["/tv.plex.providers.epg.cloud"]⟩))
    ∧ (∀ env lt s, lt._xmltv_key.truthy = false →
      (env.queryReturnResponse "/tv.plex.providers.epg.xmltv").ok = false →
      LiveTV.xmltv_key env lt s
        = ((PVal.pnone, lt), ⟨s.requests ++ ["/tv.plex.providers.epg.xmltv"]⟩)) := by
  constructor
  · intro env lt s h1 h2
    unfold LiveTV.cloud_key LiveTV.parseXmlToDict
    simp [h1, h2]
  · intro env lt s h1 h2
    unfold LiveTV.xmltv_key LiveTV.parseXmlToDict
    simp [h1, h2]

/-- C3 witness: the amended statement applied to the 404 environment and a
fresh instance. -/
theorem fetch_failure_returns_none_silently_witness :
    LiveTV.cloud_key env404 lt0 ⟨["/livetv/dvrs"]⟩
      = ((PVal.pnone, lt0), ⟨["/livetv/dvrs", "/tv.plex.providers.epg.cloud"]⟩)
    ∧ LiveTV.xmltv_key env404 lt0 ⟨[]⟩
      = ((PVal.pnone, lt0), ⟨["/tv.plex.providers.epg.xmltv"]⟩) :=
  ⟨fetch_failure_returns_none_silently.1 env404 lt0 ⟨["/livetv/dvrs"]⟩ rfl rfl,
   fetch_failure_returns_none_silently.2 env404 lt0 ⟨[]⟩ rfl rfl⟩

/-- C4: when the cloud endpoint answers with the two-Directory document
(first titled cloudKey, second titled actualGuideId), `cloud_key` on a
fresh instance returns the second Directory entry's title,
"actualGuideId". -/
theorem cloud_key_extracts_second_directory_title :
    ∀ env s,
      env.queryReturnResponse "/tv.plex.providers.epg.cloud" = ⟨true, 200, cloudDoc⟩ →
      (LiveTV.cloud_key env lt0 s).1.1 = PVal.str "actualGuideId" := by
  intro env s h
  unfold LiveTV.cloud_key LiveTV.parseXmlToDict
  rw [h]
  rfl

/-- C4 witness: the scenario evaluated against the concrete environment
`envAll`. -/
theorem cloud_key_extracts_second_directory_title_witness :
    (LiveTV.cloud_key envAll lt0 ⟨[]⟩).1.1 = PVal.str "actualGuideId" :=
  cloud_key_extracts_second_directory_title envAll ⟨[]⟩ rfl

/-- C5: the claim says `_guide_items` appends `&beginsAt%3C=<epoch>` and
`&endsAt%3E=<epoch>` filters to `/<key>/grid?type=<grid_type>`.  In the
code, `%3C` inside the `%`-format string is itself parsed as a conversion
specifier: an uppercase C is no CPython conversion, so a provided
`beginsAt` raises `ValueError: unsupported format character`; `%3E` is a
valid conversion that consumes the single argument, so a provided `endsAt`
raises `TypeError: not enough arguments for format string` at the trailing
`%s`.  Only the filterless path is built as claimed. -/
theorem guide_items_format_string_bug :
    (∀ env s b, LiveTV.guide_items env (PVal.str "k") 1 (some b) none s
        = .error (FmtErr.unsupportedFormatChar 'C'))
    ∧ (∀ env s b, LiveTV.guide_items env (PVal.str "k") 1 none (some b) s
        = .error FmtErr.notEnoughArguments)
    ∧ (∀ env s, LiveTV.guide_items env (PVal.str "k") 1 none none s
        = .ok (fetchItems env "/k/grid?type=1" s)) :=
  ⟨fun _ _ _ => rfl, fun _ _ _ => rfl, fun _ _ => rfl⟩

/-- C6: for every Element whose integer-coerced attribute fails the cast
(the `enabled` of a ChannelMapping, `tuners` of a Device, `key` of a Dvr),
mapping sets that field to none and every remaining field is still mapped
from the element's attributes. -/
theorem malformed_int_cast_defaults_rest_mapped :
    ∀ env s (e : Element),
      (cast_int (e.attribGet "enabled") = none →
        DVRChannel.loadData env e s = .ok (
          { _data := e,
            channelKey := e.attribGet "channelKey",
            deviceIdentifier := e.attribGet "deviceIdentifier",
            enabled := none,
            lineupIdentifier := e.attribGet "lineupIdentifier",
            items := findItems e }, s))
      ∧ (cast_int (e.attribGet "tuners") = none →
        DVRDevice.loadData env e s = .ok (
          { _data := e,
            parentID := e.attribGet "parentID",
            key := e.attribGetD "key" "",
            uuid := e.attribGet "uuid",
            uri := e.attribGet "uri",
            protocol := e.attribGet "protocol",
            status := e.attribGet "status",
            state := e.attribGet "state",
            lastSeenAt := toDatetime (e.attribGet "lastSeenAt"),
            make := e.attribGet "make",
            model := e.attribGet "model",
            modelNumber := e.attribGet "modelNumber",
            source := e.attribGet "source",
            sources := e.attribGet "sources",
            thumb := e.attribGet "thumb",
            tuners := none,
            items := findItems e }, s))
      ∧ (cast_int (e.attribGet "key") = none →
        DVR.loadData env e s = .ok (
          { _data := e,
            key := none,
            uuid := e.attribGet "uuid",
            language := e.attribGet "language",
            lineupURL := e.attribGet "lineup",
            title := e.attribGet "lineupTitle",
            country := e.attribGet "country",
            refreshTime := toDatetime (e.attribGet "refreshedAt"),
            epgIdentifier := e.attribGet "epgIdentifier",
            items := findItems e }, s)) := by
  intro env s e
  refine ⟨fun h => ?_, fun h => ?_, fun h => ?_⟩
  · unfold DVRChannel.loadData
    rw [h]
  · unfold DVRDevice.loadData
    rw [h]
  · unfold DVR.loadData
    rw [h]

/-- C6 witness: the malformed concrete elements `eCh`, `eDev`, `eDvr`
mapped with every other field intact. -/
theorem malformed_int_cast_defaults_rest_mapped_witness :
    cast_int (eCh.attribGet "enabled") = none
    ∧ DVRChannel.loadData envAll eCh ⟨[]⟩ = .ok (
          { _data := eCh,
            channelKey := some "2",
            deviceIdentifier := some "dev",
            enabled := none,
            lineupIdentifier := none,
            items := [] }, ⟨[]⟩)
    ∧ cast_int (eDev.attribGet "tuners") = none
    ∧ DVRDevice.loadData envAll eDev ⟨[]⟩ = .ok (
          { _data := eDev,
            parentID := none,
            key := "",
            uuid := some "u",
            uri := none,
            protocol := none,
            status := none,
            state := none,
            lastSeenAt := none,
            make := none,
            model := none,
            modelNumber := none,
            source := none,
            sources := none,
            thumb := none,
            tuners := none,
            items := [] }, ⟨[]⟩)
    ∧ cast_int (eDvr.attribGet "key") = none
    ∧ DVR.loadData envAll eDvr ⟨[]⟩ = .ok (
          { _data := eDvr,
            key := none,
            uuid := some "u2",
            language := none,
            lineupURL := none,
            title := none,
            country := none,
            refreshTime := none,
            epgIdentifier := none,
            items := [] }, ⟨[]⟩) :=
  ⟨by decide,
   (malformed_int_cast_defaults_rest_mapped envAll ⟨[]⟩ eCh).1 (by decide),
   by decide,
   (malformed_int_cast_defaults_rest_mapped envAll ⟨[]⟩ eDev).2.1 (by decide),
   by decide,
   (malformed_int_cast_defaults_rest_mapped envAll ⟨[]⟩ eDvr).2.2 (by decide)⟩

/-- C7: mapping an Element with any registered kind's loader is a pure
function of the Element — the mapped object (or the deterministic error)
does not depend on the environment or the prior request log — and it issues
no Transport request: the request log after mapping equals the log
before. -/
theorem mapElement_pure_and_no_transport :
    ∀ c env env2 e s s2,
      (mapElement c env e s).map Prod.fst = (mapElement c env2 e s2).map Prod.fst
      ∧ (mapElement c env e s).map Prod.snd = (mapElement c env e s).map (fun _ => s) := by
  intro c env env2 e s s2
  cases c <;> exact ⟨rfl, rfl⟩

/-- C8: evaluating `cloud_key` can mutate only the `_cloud_key` cache and
evaluating `xmltv_key` only the `_xmltv_key` cache; every other field of
the instance (`_dvrs`, `_token`, `_session`, `_server`, `_data`, and the
respective other key cache) is unchanged. -/
theorem cloud_xmltv_keys_frame_effect :
    ∀ env lt s,
      (((LiveTV.cloud_key env lt s).1.2)._dvrs = lt._dvrs
        ∧ ((LiveTV.cloud_key env lt s).1.2)._xmltv_key = lt._xmltv_key
        ∧ ((LiveTV.cloud_key env lt s).1.2)._token = lt._token
        ∧ ((LiveTV.cloud_key env lt s).1.2)._session = lt._session
        ∧ ((LiveTV.cloud_key env lt s).1.2)._server = lt._server
        ∧ ((LiveTV.cloud_key env lt s).1.2)._data = lt._data)
      ∧ (((LiveTV.xmltv_key env lt s).1.2)._dvrs = lt._dvrs
        ∧ ((LiveTV.xmltv_key env lt s).1.2)._cloud_key = lt._cloud_key
        ∧ ((LiveTV.xmltv_key env lt s).1.2)._token = lt._token
        ∧ ((LiveTV.xmltv_key env lt s).1.2)._session = lt._session
        ∧ ((LiveTV.xmltv_key env lt s).1.2)._server = lt._server
        ∧ ((LiveTV.xmltv_key env lt s).1.2)._data = lt._data) := by
  intro env lt s
  constructor
  · unfold LiveTV.cloud_key
    split
    · exact ⟨rfl, rfl, rfl, rfl, rfl, rfl⟩
    · split
      · exact ⟨rfl, rfl, rfl, rfl, rfl, rfl⟩
      · split
        · exact ⟨rfl, rfl, rfl, rfl, rfl, rfl⟩
        · split
          · exact ⟨rfl, rfl, rfl, rfl, rfl, rfl⟩
          · exact ⟨rfl, rfl, rfl, rfl, rfl, rfl⟩
  · unfold LiveTV.xmltv_key
    split
    · exact ⟨rfl, rfl, rfl, rfl, rfl, rfl⟩
    · split
      · exact ⟨rfl, rfl, rfl, rfl, rfl, rfl⟩
      · split
        · exact ⟨rfl, rfl, rfl, rfl, rfl, rfl⟩
        · split
          · exact ⟨rfl, rfl, rfl, rfl, rfl, rfl⟩
          · exact ⟨rfl, rfl, rfl, rfl, rfl, rfl⟩

/-- C9: whenever the fetched document makes the extraction
`data['MediaContainer']['Directory'][1]['@title']` raise (any error: too
few Directory entries, missing keys, wrong types), `cloud_key` and
`xmltv_key` on an instance with unpopulated caches return `None` as an
ordinary value — the bare except absorbs the error. -/
theorem extraction_failure_yields_none_no_raise :
    ∀ env lt s data err,
      lt._cloud_key = PVal.pnone → lt._xmltv_key = PVal.pnone →
      env.queryReturnResponse "/tv.plex.providers.epg.cloud" = ⟨true, 200, data⟩ →
      env.queryReturnResponse "/tv.plex.providers.epg.xmltv" = ⟨true, 200, data⟩ →
      data.truthy = true →
      secondDirectoryTitle data = .error err →
      (LiveTV.cloud_key env lt s).1.1 = PVal.pnone
      ∧ (LiveTV.xmltv_key env lt s).1.1 = PVal.pnone := by
  intro env lt s data err h1 h2 h3 h4 h5 h6
  constructor
  · unfold LiveTV.cloud_key LiveTV.parseXmlToDict
    rw [h3]
    simp [h1, h5, h6, PVal.truthy]
  · unfold LiveTV.xmltv_key LiveTV.parseXmlToDict
    rw [h4]
    simp [h2, h5, h6, PVal.truthy]

/-- C9 witness: the single-Directory document raises IndexError inside the
try block, and both accessors on a fresh instance against `envFail` return
`None`. -/
theorem extraction_failure_yields_none_no_raise_witness :
    secondDirectoryTitle oneDirDoc = .error PyErr.indexError
    ∧ (LiveTV.cloud_key envFail lt0 ⟨[]⟩).1.1 = PVal.pnone
    ∧ (LiveTV.xmltv_key envFail lt0 ⟨[]⟩).1.1 = PVal.pnone :=
  ⟨rfl,
   (extraction_failure_yields_none_no_raise envFail lt0 ⟨[]⟩ oneDirDoc .indexError
      rfl rfl rfl rfl rfl rfl).1,
   (extraction_failure_yields_none_no_raise envFail lt0 ⟨[]⟩ oneDirDoc .indexError
      rfl rfl rfl rfl rfl rfl).2⟩

/-- C10: `guide(beginsAt, endsAt)` returns exactly the value of
`movies(beginsAt, endsAt)` — in results, instance state, request log and
error outcome alike — since the `shows` call in `guide` is commented out in
the source. -/
theorem guide_returns_exactly_movies :
    ∀ env self beginsAt endsAt s,
      LiveTV.guide env self beginsAt endsAt s
        = LiveTV.movies env self beginsAt endsAt s :=
  fun _ _ _ _ _ => rfl
